import Mathlib

/-!
Verification of the field-extraction engine of
`diastolic-bulk-paste-2025-anywhere.js`: a shallow embedding of the
field registry, the regex matcher, unit normalization and the two-pass
`parseReport`, together with theorems settling the specification's
claims about it.

Numbers are modelled as exact rationals; `toFixed d` becomes rounding
to `d` decimal places with ties toward positive infinity (the tie rule
of the ECMAScript `toFixed` specification).  The JS regexes of the
registry are transcribed into an executable backtracking matcher that
follows the ECMAScript disjunction/greedy/lazy orderings, so a match
yields the same captures as `RegExp.prototype.exec`.
-/

/- The Batteries rational arithmetic is marked irreducible, which
blocks elaborator-side evaluation (the kernel reduces it fine); restore
the default reducibility inside this file so that concrete runs of the
engine can be settled by `decide`. -/
set_option allowUnsafeReducibility true

attribute [semireducible] Rat.add Rat.mul Rat.inv Rat.sub Rat.div Rat.ofScientific

namespace Diasto

/-- Floor of a rational as an integer, written with floor division so
that it evaluates by kernel reduction. -/
def qfloor (q : ℚ) : ℤ := q.num / (q.den : ℤ)

/-- Half-up rounding of a rational to an integer: the integer `n`
closest to `x`, the larger one on ties, which is the tie rule of the
ECMAScript `toFixed` specification. -/
def qround (x : ℚ) : ℤ := qfloor (x + 1 / 2)

/-- Rounding used by the source's `round` helper: JS
`+(+x).toFixed(d)` on an exact rational. -/
def jsRound (x : ℚ) (d : ℕ) : ℚ :=
  ((qround (x * (10 : ℚ) ^ d) : ℤ) : ℚ) / (10 : ℚ) ^ d

/-- Source `round`: `null`/`NaN` propagate to `null`; both are `none` here. -/
def jsRoundO (x : Option ℚ) (d : ℕ) : Option ℚ :=
  x.map (fun q => jsRound q d)

/-- Characters kept by `String(s).replace(/[^0-9.+-]/g, "")`. -/
def keepNumChar (c : Char) : Bool :=
  c.isDigit || c = '.' || c = '+' || c = '-'

/-- Value of a (possibly empty) list of decimal digits. -/
def digitsVal (cs : List Char) : ℕ :=
  cs.foldl (fun a c => 10 * a + (c.toNat - 48)) 0

/-- Value of `ip.fp` as a rational. -/
def decValue (ip fp : List Char) : ℚ :=
  (digitsVal ip : ℚ) + (digitsVal fp : ℚ) / (10 : ℚ) ^ fp.length

/-- JS `Number` on an unsigned token drawn from the kept characters:
digits with at most one decimal point and at least one digit; anything
else is `NaN` (`none`). -/
def parseUnsigned (cs : List Char) : Option ℚ :=
  if cs.any (fun c => c = '+' || c = '-') then none
  else if (cs.filter (fun c => c = '.')).length = 0 then
    if cs.isEmpty then none else some (digitsVal cs)
  else if (cs.filter (fun c => c = '.')).length = 1 then
    let ip := cs.takeWhile (fun c => c ≠ '.')
    let fp := (cs.dropWhile (fun c => c ≠ '.')).drop 1
    if ip.isEmpty && fp.isEmpty then none else some (decValue ip fp)
  else none

/-- JS `Number` on a string of kept characters.  The empty string is
`0` (JS `Number("") === 0`); an optional single leading sign is
allowed; otherwise `NaN` (`none`). -/
def jsNumOfKept (cs : List Char) : Option ℚ :=
  match cs with
  | [] => some 0
  | '+' :: rest => parseUnsigned rest
  | '-' :: rest => (parseUnsigned rest).map (fun q => -q)
  | _ => parseUnsigned cs

/-- Source `toNum`: `null` stays `null`; otherwise strip everything but
digits, sign and decimal point and convert; `NaN` is also `none`. -/
def toNum (s : Option String) : Option ℚ :=
  match s with
  | none => none
  | some s => jsNumOfKept (s.data.filter keepNumChar)

/-- JS truthiness of an optional string (`undefined` and `""` are falsy). -/
def truthyS (s : Option String) : Bool :=
  match s with
  | none => false
  | some s => !s.isEmpty

/-- Case-insensitive character comparison (ASCII case folding, which is
what the `i` flag does on these ASCII patterns). -/
def ciEq (a b : Char) : Bool := a.toLower = b.toLower

/-- JS `\w` for `\b`: ASCII letters, digits and underscore. -/
def isWordChar (c : Char) : Bool := c.isAlphanum || c = '_'

/-- Case-insensitive prefix test on character lists. -/
def isPrefCI : List Char → List Char → Bool
  | [], _ => true
  | _ :: _, [] => false
  | a :: as, b :: bs => ciEq a b && isPrefCI as bs

/-- Case-insensitive substring test: the semantics of
`/lit/i.test(s)` for a pattern `lit` with no metacharacters. -/
def containsCI (needle : List Char) : List Char → Bool
  | [] => isPrefCI needle []
  | c :: cs => isPrefCI needle (c :: cs) || containsCI needle cs

/-- Item of a regex character class. -/
inductive ClsItem where
  | single (c : Char)
  | range (lo hi : Char)
deriving DecidableEq

/-- Abstract syntax of the regex subset used by the registry's
patterns (all compiled with the `i` flag). -/
inductive RE where
  | eps
  | lit (c : Char)
  | cls (neg : Bool) (items : List ClsItem)
  | anyChar
  | seq (a b : RE)
  | alt (a b : RE)
  | rep (r : RE) (lo : ℕ) (hi : Option ℕ) (lzy : Bool)
  | group (idx : Option ℕ) (r : RE)
  | wordB
  | look (r : RE)
deriving DecidableEq

/-- Membership in a character class; single items compare
case-insensitively (the `i` flag canonicalization). -/
def clsMatch (neg : Bool) (items : List ClsItem) (c : Char) : Bool :=
  let m := items.any (fun it =>
    match it with
    | .single a => ciEq a c
    | .range lo hi => decide (lo ≤ c) && decide (c ≤ hi))
  if neg then !m else m

/-- Capture list: group index paired with captured characters; the
most recent capture of a group is first. -/
def Caps : Type := List (ℕ × List Char)

/-- Slice `l[a..b)`. -/
def slice (l : List Char) (a b : ℕ) : List Char := (l.take b).drop a

/-- Backtracking matcher in continuation style, following the
ECMAScript ordering: alternation prefers the left branch, greedy
repetition prefers one more iteration, lazy repetition prefers the
continuation; an optional iteration that consumes nothing fails (the
ES empty-repetition rule).  `fuel` bounds the call depth; it is an
artifact of the embedding and is chosen large enough for every input
evaluated here (JS regex matching always terminates). -/
def mrun : ℕ → List Char → RE → ℕ → Caps → (ℕ → Caps → Option (ℕ × Caps)) → Option (ℕ × Caps)
  | 0, _, _, _, _, _ => none
  | fuel + 1, input, re, pos, caps, k =>
    match re with
    | .eps => k pos caps
    | .lit c =>
      match input.get? pos with
      | some d => if ciEq c d then k (pos + 1) caps else none
      | none => none
    | .cls neg items =>
      match input.get? pos with
      | some d => if clsMatch neg items d then k (pos + 1) caps else none
      | none => none
    | .anyChar =>
      match input.get? pos with
      | some d => if d = '\n' ∨ d = '\r' then none else k (pos + 1) caps
      | none => none
    | .seq a b =>
      mrun fuel input a pos caps (fun p c => mrun fuel input b p c k)
    | .alt a b =>
      match mrun fuel input a pos caps k with
      | some res => some res
      | none => mrun fuel input b pos caps k
    | .rep r lo hi lzy =>
      if lo > 0 then
        mrun fuel input r pos caps (fun p c =>
          mrun fuel input (.rep r (lo - 1) (hi.map (fun n => n - 1)) lzy) p c k)
      else
        match hi with
        | some 0 => k pos caps
        | _ =>
          if lzy then
            match k pos caps with
            | some res => some res
            | none =>
              mrun fuel input r pos caps (fun p c =>
                if p = pos then none
                else mrun fuel input (.rep r 0 (hi.map (fun n => n - 1)) lzy) p c k)
          else
            match mrun fuel input r pos caps (fun p c =>
              if p = pos then none
              else mrun fuel input (.rep r 0 (hi.map (fun n => n - 1)) lzy) p c k) with
            | some res => some res
            | none => k pos caps
    | .group idx r =>
      mrun fuel input r pos caps (fun p c =>
        match idx with
        | some i => k p ((i, slice input pos p) :: c)
        | none => k p c)
    | .wordB =>
      let before := match pos with
        | 0 => false
        | q + 1 => match input.get? q with
          | some c => isWordChar c
          | none => false
      let after := match input.get? pos with
        | some c => isWordChar c
        | none => false
      if before ≠ after then k pos caps else none
    | .look r =>
      match mrun fuel input r pos caps (fun p c => some (p, c)) with
      | some (_, c) => k pos c
      | none => none

/-- Scan for the first starting position with a match, as
`RegExp.prototype.exec` does for a non-global regex; the first
argument counts the starting positions still to try. -/
def execFrom : ℕ → ℕ → List Char → RE → ℕ → Option (ℕ × ℕ × Caps)
  | 0, _, _, _, _ => none
  | tries + 1, fuel, input, re, start =>
    match mrun fuel input re start [] (fun p c => some (p, c)) with
    | some (p, c) => some (start, p, c)
    | none => execFrom tries fuel input re (start + 1)

/-- Result of a successful `exec`: the full match `m[0]` and the
captures. -/
structure MatchRes where
  m0 : String
  caps : Caps

/-- Group lookup `m[i]`: `none` is a non-participating group
(`undefined` in JS). -/
def MatchRes.g (m : MatchRes) (i : ℕ) : Option String :=
  (m.caps.find? (fun p => p.1 = i)).map (fun p => String.mk p.2)

/-- Fuel bound used for all executions; depth of any backtracking path
on these patterns is far below this. -/
def fuelFor (input : List Char) : ℕ := 5000 + 200 * input.length

/-- The embedding of `rx.exec(text)` for the registry's regexes. -/
def execRe (re : RE) (input : List Char) : Option MatchRes :=
  match execFrom (input.length + 1) (fuelFor input) input re 0 with
  | some (a, b, c) => some ⟨String.mk (slice input a b), c⟩
  | none => none

/-- Literal string pattern: a sequence of case-insensitive literals. -/
def rstr (s : String) : RE := s.data.foldr (fun c acc => RE.seq (.lit c) acc) .eps

/-- Sequence of patterns. -/
def rseq (l : List RE) : RE := l.foldr RE.seq .eps

/-- Disjunction of patterns, left-preferring like `a|b|c`. -/
def ralt : List RE → RE
  | [] => .eps
  | [a] => a
  | a :: rest => .alt a (ralt rest)

/-- Pattern `r?`. -/
def ropt (r : RE) : RE := .rep r 0 (some 1) false

/-- Pattern `r*`. -/
def rstar (r : RE) : RE := .rep r 0 none false

/-- JS `\s` restricted to ASCII whitespace (the report texts considered
here contain no Unicode spaces). -/
def wsCls : RE :=
  .cls false [.single ' ', .single '\t', .single '\n', .single '\r',
    .single (Char.ofNat 11), .single (Char.ofNat 12)]

/-- Pattern `\s*`. -/
def wss : RE := rstar wsCls

/-- Pattern `[0-9.]+`. -/
def numTok : RE := .rep (.cls false [.range '0' '9', .single '.']) 1 none false

/-- Pattern `([0-9.]+)` as capture group 1. -/
def cap1num : RE := .group (some 1) numTok

/-- Pattern `(-?[0-9.]+)` as capture group 1. -/
def capSigned1 : RE := .group (some 1) (rseq [ropt (.lit '-'), numTok])

/-- Pattern `\s*[:=]?\s*`, the label/value separator. -/
def sepRE : RE := rseq [wss, ropt (.cls false [.single ':', .single '=']), wss]

/-- Pattern `(m\/s|cm\/s)?` as optional capture group 2. -/
def cap2unitVel : RE := ropt (.group (some 2) (.alt (rstr "m/s") (rstr "cm/s")))

/-- Pattern `(cm\/s|m\/s)?` as optional capture group 2. -/
def cap2unitEp : RE := ropt (.group (some 2) (.alt (rstr "cm/s") (rstr "m/s")))

/-- Character class `['′` ]` (apostrophe, prime, backtick, space)
written with explicit code points. -/
def primeCls : RE :=
  .cls false [.single (Char.ofNat 39), .single '′', .single (Char.ofNat 96), .single ' ']

/-- Pattern `(?:e['′` ]|e-?prime)`. -/
def eTok : RE :=
  .alt (rseq [.lit 'e', primeCls]) (rseq [.lit 'e', ropt (.lit '-'), rstr "prime"])

/-- Pattern `[^0-9]{0,10}`. -/
def nonDigit10 : RE := .rep (.cls true [.range '0' '9']) 0 (some 10) false

-- /(?:\b(?:MV|Mitral)\s*E(?:\s*(?:peak|wave))?(?:\s*velocity)?)[^0-9]{0,10}([0-9.]+)\s*(m\/s|cm\/s)?/i
def reMVE1 : RE := rseq [.wordB, .alt (rstr "MV") (rstr "Mitral"), wss, .lit 'E',
  ropt (rseq [wss, .alt (rstr "peak") (rstr "wave")]), ropt (rseq [wss, rstr "velocity"]),
  nonDigit10, cap1num, wss, cap2unitVel]

-- /(?:\bE\s*wave(?:\s*velocity)?)\s*[:=]?\s*([0-9.]+)\s*(m\/s|cm\/s)?\b/i
def reMVE2 : RE := rseq [.wordB, .lit 'E', wss, rstr "wave",
  ropt (rseq [wss, rstr "velocity"]), sepRE, cap1num, wss, cap2unitVel, .wordB]

-- /(?:\b(?:MV|Mitral)\s*A(?:\s*(?:peak|wave))?(?:\s*velocity)?)[^0-9]{0,10}([0-9.]+)\s*(m\/s|cm\/s)?/i
def reMVA1 : RE := rseq [.wordB, .alt (rstr "MV") (rstr "Mitral"), wss, .lit 'A',
  ropt (rseq [wss, .alt (rstr "peak") (rstr "wave")]), ropt (rseq [wss, rstr "velocity"]),
  nonDigit10, cap1num, wss, cap2unitVel]

-- /(?:\bA\s*wave(?:\s*velocity)?)\s*[:=]?\s*([0-9.]+)\s*(m\/s|cm\/s)?\b/i
def reMVA2 : RE := rseq [.wordB, .lit 'A', wss, rstr "wave",
  ropt (rseq [wss, rstr "velocity"]), sepRE, cap1num, wss, cap2unitVel, .wordB]

-- /\bE\s*\/\s*A\s*(?:ratio)?\s*[:=]?\s*([0-9.]+)/i
def reEA1 : RE := rseq [.wordB, .lit 'E', wss, .lit '/', wss, .lit 'A', wss,
  ropt (rstr "ratio"), sepRE, cap1num]

-- /\bE:?A\s*(?:ratio)?\s*[:=]?\s*([0-9.]+)/i
def reEA2 : RE := rseq [.wordB, .lit 'E', ropt (.lit ':'), .lit 'A', wss,
  ropt (rstr "ratio"), sepRE, cap1num]

-- /\b(?:Deceleration\s*time|DT)\s*[:=]?\s*([0-9.]+)\s*ms\b/i
def reDT : RE := rseq [.wordB, .alt (rseq [rstr "Deceleration", wss, rstr "time"]) (rstr "DT"),
  sepRE, cap1num, wss, rstr "ms", .wordB]

-- /\b(?:septal|medial)\s*(?:e['′` ]|e-?prime)\s*[:=]?\s*([0-9.]+)\s*(cm\/s|m\/s)?\b/i
def reEpS1 : RE := rseq [.wordB, .alt (rstr "septal") (rstr "medial"), wss, eTok,
  sepRE, cap1num, wss, cap2unitEp, .wordB]

-- /\be['′` ](?:septal|medial)\s*[:=]?\s*([0-9.]+)\s*(cm\/s|m\/s)?\b/i
def reEpS2 : RE := rseq [.wordB, .lit 'e', primeCls, .alt (rstr "septal") (rstr "medial"),
  sepRE, cap1num, wss, cap2unitEp, .wordB]

-- /\b(?:lateral|lat)\s*(?:e['′` ]|e-?prime)\s*[:=]?\s*([0-9.]+)\s*(cm\/s|m\/s)?\b/i
def reEpL1 : RE := rseq [.wordB, .alt (rstr "lateral") (rstr "lat"), wss, eTok,
  sepRE, cap1num, wss, cap2unitEp, .wordB]

-- /\be['′` ](?:lateral|lat)\s*[:=]?\s*([0-9.]+)\s*(cm\/s|m\/s)?\b/i
def reEpL2 : RE := rseq [.wordB, .lit 'e', primeCls, .alt (rstr "lateral") (rstr "lat"),
  sepRE, cap1num, wss, cap2unitEp, .wordB]

-- /\b(?:average|avg)\s*e['′` ]\s*[:=]?\s*([0-9.]+)\s*(cm\/s|m\/s)?\b/i
def reEpA : RE := rseq [.wordB, .alt (rstr "average") (rstr "avg"), wss, .lit 'e', primeCls,
  sepRE, cap1num, wss, cap2unitEp, .wordB]

-- /\bE\s*\/\s*e['′` ]\s*(?:septal|medial)\s*[:=]?\s*([0-9.]+)/i
def reEoS : RE := rseq [.wordB, .lit 'E', wss, .lit '/', wss, .lit 'e', primeCls, wss,
  .alt (rstr "septal") (rstr "medial"), sepRE, cap1num]

-- /\bE\s*\/\s*e['′` ]\s*(?:lateral|lat)\s*[:=]?\s*([0-9.]+)/i
def reEoL : RE := rseq [.wordB, .lit 'E', wss, .lit '/', wss, .lit 'e', primeCls, wss,
  .alt (rstr "lateral") (rstr "lat"), sepRE, cap1num]

-- /\bE\s*\/\s*e['′` ]\s*(?:avg|average)\s*[:=]?\s*([0-9.]+)/i
def reEoA : RE := rseq [.wordB, .lit 'E', wss, .lit '/', wss, .lit 'e', primeCls, wss,
  .alt (rstr "avg") (rstr "average"), sepRE, cap1num]

-- /\bTR\s*(?:Vmax|Vmax\.?|V max|peak\s*velocity)\s*[:=]?\s*([0-9.]+)\s*m\/s\b/i
def reTR1 : RE := rseq [.wordB, rstr "TR", wss,
  ralt [rstr "Vmax", rseq [rstr "Vmax", ropt (.lit '.')], rstr "V max",
    rseq [rstr "peak", wss, rstr "velocity"]],
  sepRE, cap1num, wss, rstr "m/s", .wordB]

-- /\btricuspid\s*regurgitation.*?peak\s*velocity[^0-9]{0,10}([0-9.]+)\s*m\/s\b/i
def reTR2 : RE := rseq [.wordB, rstr "tricuspid", wss, rstr "regurgitation",
  .rep .anyChar 0 none true, rstr "peak", wss, rstr "velocity",
  nonDigit10, cap1num, wss, rstr "m/s", .wordB]

-- /\b(?:LA\s*volume\s*index|LAVI)\s*[:=]?\s*([0-9.]+)\s*(?:ml|mL)\s*\/\s*m(?:2|\^2)\b/i
def reLAVI : RE := rseq [.wordB,
  .alt (rseq [rstr "LA", wss, rstr "volume", wss, rstr "index"]) (rstr "LAVI"),
  sepRE, cap1num, wss, .alt (rstr "ml") (rstr "mL"), wss, .lit '/', wss, .lit 'm',
  .alt (rstr "2") (rstr "^2"), .wordB]

-- /\bLA\s*volume(?:\s*\(biplane\))?\s*[:=]?\s*([0-9.]+)\s*(?:ml|mL)\b/i
def reLAvol : RE := rseq [.wordB, rstr "LA", wss, rstr "volume",
  ropt (rseq [wss, rstr "(biplane)"]), sepRE, cap1num, wss,
  .alt (rstr "ml") (rstr "mL"), .wordB]

-- /\bBSA\s*[:=]?\s*([0-9.]+)\s*m(?:2|\^2)\b/i
def reBSA1 : RE := rseq [.wordB, rstr "BSA", sepRE, cap1num, wss, .lit 'm',
  .alt (rstr "2") (rstr "^2"), .wordB]

-- /\bBody\s*surface\s*area\s*[:=]?\s*([0-9.]+)\s*m(?:2|\^2)\b/i
def reBSA2 : RE := rseq [.wordB, rstr "Body", wss, rstr "surface", wss, rstr "area",
  sepRE, cap1num, wss, .lit 'm', .alt (rstr "2") (rstr "^2"), .wordB]

-- /\b(?:HR|Heart\s*rate)\s*[:=]?\s*([0-9.]+)\s*bpm\b/i
def reHR : RE := rseq [.wordB, .alt (rstr "HR") (rseq [rstr "Heart", wss, rstr "rate"]),
  sepRE, cap1num, wss, rstr "bpm", .wordB]

/-- Pattern `([0-9]{2,3})`. -/
def dig23 : RE := .rep (.cls false [.range '0' '9']) 2 (some 3) false

-- /\b(?:BP|Blood\s*pressure)\s*[:=]?\s*([0-9]{2,3})\s*\/\s*([0-9]{2,3})\b/i
def reBP : RE := rseq [.wordB, .alt (rstr "BP") (rseq [rstr "Blood", wss, rstr "pressure"]),
  sepRE, .group (some 1) dig23, wss, .lit '/', wss, .group (some 2) dig23, .wordB]

-- /\b(?:Rhythm|Underlying\s*rhythm)\s*[:=]?\s*([A-Za-z ]{2,})/i
def reRhy1 : RE := rseq [.wordB,
  .alt (rstr "Rhythm") (rseq [rstr "Underlying", wss, rstr "rhythm"]), sepRE,
  .group (some 1) (.rep (.cls false [.range 'A' 'Z', .range 'a' 'z', .single ' ']) 2 none false)]

-- /\bAtrial\s*fibrillation\b/i
def reRhy2 : RE := rseq [.wordB, rstr "Atrial", wss, rstr "fibrillation", .wordB]

-- /\bAF(?:ib)?\b/i
def reRhy3 : RE := rseq [.wordB, rstr "AF", ropt (rstr "ib"), .wordB]

-- /\bSinus\s*rhythm\b/i
def reRhy4 : RE := rseq [.wordB, rstr "Sinus", wss, rstr "rhythm", .wordB]

-- /\bNSR\b/i
def reRhy5 : RE := rseq [.wordB, rstr "NSR", .wordB]

-- /\b(?:LA|Left\s*atrial)\s*(?:reservoir\s*strain|strain\s*\(reservoir\)|LASr|LARS|PALS)\s*[:=]?\s*(-?[0-9.]+)\s*%/i
def reLARS1 : RE := rseq [.wordB, .alt (rstr "LA") (rseq [rstr "Left", wss, rstr "atrial"]), wss,
  ralt [rseq [rstr "reservoir", wss, rstr "strain"],
    rseq [rstr "strain", wss, rstr "(reservoir)"], rstr "LASr", rstr "LARS", rstr "PALS"],
  sepRE, capSigned1, wss, .lit '%']

-- /\bLA\s*strain\s*[:=]?\s*(-?[0-9.]+)\s*%\b/i
def reLARS2 : RE := rseq [.wordB, rstr "LA", wss, rstr "strain", sepRE, capSigned1, wss,
  .lit '%', .wordB]

-- /\b(?:pulmonary\s*vein(?:ous)?|PV)\s*S\s*\/\s*D\s*(?:ratio)?\s*[:=]?\s*([0-9.]+)/i
def rePVSD1 : RE := rseq [.wordB,
  .alt (rseq [rstr "pulmonary", wss, rstr "vein", ropt (rstr "ous")]) (rstr "PV"),
  wss, .lit 'S', wss, .lit '/', wss, .lit 'D', wss, ropt (rstr "ratio"), sepRE, cap1num]

-- /\bS\s*\/\s*D\s*[:=]?\s*([0-9.]+)\b(?=.*pulmonary\s*vein)/i
def rePVSD2 : RE := rseq [.wordB, .lit 'S', wss, .lit '/', wss, .lit 'D', sepRE, cap1num,
  .wordB, .look (rseq [.rep .anyChar 0 none false, rstr "pulmonary", wss, rstr "vein"])]

-- /\bIVRT\s*[:=]?\s*([0-9.]+)\s*ms\b/i
def reIVRT1 : RE := rseq [.wordB, rstr "IVRT", sepRE, cap1num, wss, rstr "ms", .wordB]

-- /\bisovolumic\s*relaxation\s*time\s*[:=]?\s*([0-9.]+)\s*ms\b/i
def reIVRT2 : RE := rseq [.wordB, rstr "isovolumic", wss, rstr "relaxation", wss, rstr "time",
  sepRE, cap1num, wss, rstr "ms", .wordB]

-- /\bPASP\s*[:=]?\s*([0-9.]+)\s*mmHg\b/i
def rePASP1 : RE := rseq [.wordB, rstr "PASP", sepRE, cap1num, wss, rstr "mmHg", .wordB]

-- /\bRVSP\s*[:=]?\s*([0-9.]+)\s*mmHg\b/i
def rePASP2 : RE := rseq [.wordB, rstr "RVSP", sepRE, cap1num, wss, rstr "mmHg", .wordB]

-- /\bSystolic\s*PAP\s*[:=]?\s*([0-9.]+)\s*mmHg\b/i
def rePASP3 : RE := rseq [.wordB, rstr "Systolic", wss, rstr "PAP", sepRE, cap1num, wss,
  rstr "mmHg", .wordB]

-- /\b(?:RA\s*pressure|RAP|Estimated\s*RA\s*pressure)\s*[:=]?\s*([0-9.]+)\s*mmHg\b/i
def reRAP : RE := rseq [.wordB,
  ralt [rseq [rstr "RA", wss, rstr "pressure"], rstr "RAP",
    rseq [rstr "Estimated", wss, rstr "RA", wss, rstr "pressure"]],
  sepRE, cap1num, wss, rstr "mmHg", .wordB]

-- /\b(?:LV\s*)?(?:global\s*longitudinal\s*strain|GLS)\s*[:=]?\s*(-?[0-9.]+)\s*%\b/i
def reGLS : RE := rseq [.wordB, ropt (rseq [rstr "LV", wss]),
  .alt (rseq [rstr "global", wss, rstr "longitudinal", wss, rstr "strain"]) (rstr "GLS"),
  sepRE, capSigned1, wss, .lit '%', .wordB]

-- /\b(?:exercise|stress|peak)\s*E\s*\/\s*e['′` ]\s*(?:avg|average)?\s*[:=]?\s*([0-9.]+)/i
def reExEE : RE := rseq [.wordB, ralt [rstr "exercise", rstr "stress", rstr "peak"], wss,
  .lit 'E', wss, .lit '/', wss, .lit 'e', primeCls, wss,
  ropt (.alt (rstr "avg") (rstr "average")), sepRE, cap1num]

-- /\b(?:exercise|stress|peak)\s*TR\s*(?:Vmax|peak\s*velocity)\s*[:=]?\s*([0-9.]+)\s*m\/s\b/i
def reExTR : RE := rseq [.wordB, ralt [rstr "exercise", rstr "stress", rstr "peak"], wss,
  rstr "TR", wss, .alt (rstr "Vmax") (rseq [rstr "peak", wss, rstr "velocity"]),
  sepRE, cap1num, wss, rstr "m/s", .wordB]

/-- Canonical value held in the result bag: a number or a short
categorical string (only the rhythm field stores strings). -/
inductive CanonValue where
  | num (q : ℚ)
  | str (s : String)
deriving DecidableEq

/-- Keys of the field registry, in declaration order. -/
inductive FieldKey where
  | MV_E_m_s | MV_A_m_s | EA_ratio | DT_ms
  | eprime_septal_cm_s | eprime_lateral_cm_s | eprime_avg_cm_s
  | E_over_eprime_septal | E_over_eprime_lateral | E_over_eprime_avg
  | TR_Vmax_m_s | LAVI_ml_m2 | LA_volume_ml | BSA_m2
  | HR_bpm | BP_sys | BP_dia | Rhythm
  | LA_reservoir_strain_pct | PV_SD_ratio | IVRT_ms | PASP_mmHg
  | RA_pressure_mmHg | LV_GLS_pct | LA_stiffness_index
  | E_over_eprime_avg_exercise | TR_Vmax_exercise_m_s
deriving DecidableEq

/-- A result bag: mapping from field key to canonical value or absent,
represented as an association list with the most recent entry first
(the JS object written by the engine).  A JS entry explicitly set to
`null` is observationally identical to an absent key for every reader
in the engine (all reads are `== null` tests), so reading collapses
both to `none`. -/
def Bag : Type := List (FieldKey × Option CanonValue)

/-- The fresh bag a parse call starts from. -/
def emptyBag : Bag := []

/-- Setting one entry of a bag (`bag[key] = val`). -/
def Bag.set (b : Bag) (k : FieldKey) (v : Option CanonValue) : Bag := (k, v) :: b

/-- Reading one entry of a bag (`bag[key]`, with absent and `null`
collapsed to `none`). -/
def Bag.get (b : Bag) (k : FieldKey) : Option CanonValue :=
  match b with
  | [] => none
  | (k2, v) :: rest => if k = k2 then v else Bag.get rest k

/-- Normalizer of the mitral E/A velocity fields.  Note that the first
unit test is the unanchored `/m\/s/i.test(unit)`, which is also true of
the unit string `cm/s`, so the divide-by-100 branch below it is dead
code: this is transcribed exactly as the source has it. -/
def normVel (v u : Option String) : Option ℚ :=
  match toNum v with
  | none => none
  | some x =>
    match u with
    | none => some (jsRound x 3)
    | some s =>
      if containsCI "m/s".data s.data then some (jsRound x 3)
      else if containsCI "cm/s".data s.data then some (jsRound (x / 100) 3)
      else some (jsRound x 3)

/-- Normalizer of the tissue-Doppler fields: default unit cm/s, an
explicit m/s unit multiplies by 100 (here the cm/s test comes first,
and `cm/s` is not a substring of `m/s`, so both branches are live). -/
def normEp (v u : Option String) : Option ℚ :=
  match toNum v with
  | none => none
  | some x =>
    match u with
    | none => some (jsRound x 2)
    | some s =>
      if containsCI "cm/s".data s.data then some (jsRound x 2)
      else if containsCI "m/s".data s.data then some (jsRound (x * 100) 2)
      else some (jsRound x 2)

-- /atrial\s*fibrillation|afib|\baf\b/ applied to the lowercased match
def reAFtest : RE := ralt [rseq [rstr "atrial", wss, rstr "fibrillation"], rstr "afib",
  rseq [.wordB, rstr "af", .wordB]]

-- /sinus\s*rhythm|\bnsr\b/ applied to the lowercased match
def reSinusTest : RE := .alt (rseq [rstr "sinus", wss, rstr "rhythm"])
  (rseq [.wordB, rstr "nsr", .wordB])

/-- Normalizer of the rhythm field: classifies from the full match
text, falling back to the trimmed capture. -/
def normRhythm (v : Option String) (m0 : String) : Option CanonValue :=
  let txt := m0.toLower
  if (execRe reAFtest txt.data).isSome then some (.str "AF")
  else if (execRe reSinusTest txt.data).isSome then some (.str "Sinus")
  else
    match v with
    | some s => if s.isEmpty then none else some (.str s.trim)
    | none => none

/-- Numeric read of a bag entry, as the derivation functions use it.
Only the rhythm field ever stores a string, and no derivation reads the
rhythm field, so collapsing a string entry to `none` here never differs
from the JS `!= null` test followed by numeric use on any reachable bag. -/
def getNum (b : Bag) (k : FieldKey) : Option ℚ :=
  match b.get k with
  | some (.num q) => some q
  | _ => none

/-- Derivation of EA_ratio: E ÷ A when both present and A nonzero. -/
def deriveEA (b : Bag) : Option CanonValue :=
  match getNum b .MV_E_m_s, getNum b .MV_A_m_s with
  | some e, some a => if a ≠ 0 then some (.num (jsRound (e / a) 2)) else none
  | _, _ => none

/-- Derivation of the e-prime average: (septal + lateral) ÷ 2. -/
def deriveEpAvg (b : Bag) : Option CanonValue :=
  match getNum b .eprime_septal_cm_s, getNum b .eprime_lateral_cm_s with
  | some s, some l => some (.num (jsRound ((s + l) / 2) 2))
  | _, _ => none

/-- Derivation of E over septal e-prime, with E unit-aligned to cm/s. -/
def deriveEoS (b : Bag) : Option CanonValue :=
  match getNum b .MV_E_m_s, getNum b .eprime_septal_cm_s with
  | some e, some ec => if ec ≠ 0 then some (.num (jsRound (e * 100 / ec) 2)) else none
  | _, _ => none

/-- Derivation of E over lateral e-prime. -/
def deriveEoL (b : Bag) : Option CanonValue :=
  match getNum b .MV_E_m_s, getNum b .eprime_lateral_cm_s with
  | some e, some ec => if ec ≠ 0 then some (.num (jsRound (e * 100 / ec) 2)) else none
  | _, _ => none

/-- Derivation of E over average e-prime: the denominator is the bag's
e-prime average if present (nullish coalescing), otherwise the inline
unrounded septal/lateral mean. -/
def deriveEoA (b : Bag) : Option CanonValue :=
  let ecm : Option ℚ :=
    match getNum b .eprime_avg_cm_s with
    | some m => some m
    | none =>
      match getNum b .eprime_septal_cm_s, getNum b .eprime_lateral_cm_s with
      | some s, some l => some ((s + l) / 2)
      | _, _ => none
  match getNum b .MV_E_m_s, ecm with
  | some e, some ec => if ec ≠ 0 then some (.num (jsRound (e * 100 / ec) 2)) else none
  | _, _ => none

/-- Derivation of LAVI: LA volume ÷ BSA when BSA nonzero. -/
def deriveLAVI (b : Bag) : Option CanonValue :=
  match getNum b .LA_volume_ml, getNum b .BSA_m2 with
  | some vol, some bsa => if bsa ≠ 0 then some (.num (jsRound (vol / bsa) 1)) else none
  | _, _ => none

/-- Derivation of PASP: 4·TRVmax² + RA pressure. -/
def derivePASP (b : Bag) : Option CanonValue :=
  match getNum b .TR_Vmax_m_s, getNum b .RA_pressure_mmHg with
  | some tr, some rap => some (.num (jsRound (4 * tr * tr + rap) 0))
  | _, _ => none

/-- Derivation of the LA stiffness index: E over average e-prime ÷ LA
reservoir strain when the strain is nonzero. -/
def deriveStiff (b : Bag) : Option CanonValue :=
  match getNum b .E_over_eprime_avg, getNum b .LA_reservoir_strain_pct with
  | some eo, some lars => if lars ≠ 0 then some (.num (jsRound (eo / lars) 2)) else none
  | _, _ => none

/-- One entry of the field registry. -/
structure FieldSpec where
  key : FieldKey
  patterns : List RE
  normalize : Option String → Option String → Bag → String → Option CanonValue
  derive : Option (Bag → Option CanonValue)

/-- Velocity normalizer in registry signature. -/
def normVelF : Option String → Option String → Bag → String → Option CanonValue :=
  fun v u _ _ => (normVel v u).map CanonValue.num

/-- Tissue-Doppler normalizer in registry signature. -/
def normEpF : Option String → Option String → Bag → String → Option CanonValue :=
  fun v u _ _ => (normEp v u).map CanonValue.num

/-- Plain `round(toNum(v), d)` normalizer in registry signature. -/
def normRoundF (d : ℕ) : Option String → Option String → Bag → String → Option CanonValue :=
  fun v _ _ _ => (jsRoundO (toNum v) d).map CanonValue.num

/-- Blood-pressure normalizer: always `null` (the dual assignment in
the matcher loop handles the two captures). -/
def normNullF : Option String → Option String → Bag → String → Option CanonValue :=
  fun _ _ _ _ => none

/-- Rhythm normalizer in registry signature. -/
def normRhythmF : Option String → Option String → Bag → String → Option CanonValue :=
  fun v _ _ m0 => normRhythm v m0

def specMV_E : FieldSpec := ⟨.MV_E_m_s, [reMVE1, reMVE2], normVelF, none⟩
def specMV_A : FieldSpec := ⟨.MV_A_m_s, [reMVA1, reMVA2], normVelF, none⟩
def specEA : FieldSpec := ⟨.EA_ratio, [reEA1, reEA2], normRoundF 2, some deriveEA⟩
def specDT : FieldSpec := ⟨.DT_ms, [reDT], normRoundF 0, none⟩
def specEpS : FieldSpec := ⟨.eprime_septal_cm_s, [reEpS1, reEpS2], normEpF, none⟩
def specEpL : FieldSpec := ⟨.eprime_lateral_cm_s, [reEpL1, reEpL2], normEpF, none⟩
def specEpA : FieldSpec := ⟨.eprime_avg_cm_s, [reEpA], normEpF, some deriveEpAvg⟩
def specEoS : FieldSpec := ⟨.E_over_eprime_septal, [reEoS], normRoundF 2, some deriveEoS⟩
def specEoL : FieldSpec := ⟨.E_over_eprime_lateral, [reEoL], normRoundF 2, some deriveEoL⟩
def specEoA : FieldSpec := ⟨.E_over_eprime_avg, [reEoA], normRoundF 2, some deriveEoA⟩
def specTR : FieldSpec := ⟨.TR_Vmax_m_s, [reTR1, reTR2], normRoundF 2, none⟩
def specLAVI : FieldSpec := ⟨.LAVI_ml_m2, [reLAVI], normRoundF 1, some deriveLAVI⟩
def specLAvol : FieldSpec := ⟨.LA_volume_ml, [reLAvol], normRoundF 1, none⟩
def specBSA : FieldSpec := ⟨.BSA_m2, [reBSA1, reBSA2], normRoundF 2, none⟩
def specHR : FieldSpec := ⟨.HR_bpm, [reHR], normRoundF 0, none⟩
def specBPsys : FieldSpec := ⟨.BP_sys, [reBP], normNullF, none⟩
def specBPdia : FieldSpec := ⟨.BP_dia, [reBP], normNullF, none⟩
def specRhythm : FieldSpec := ⟨.Rhythm, [reRhy1, reRhy2, reRhy3, reRhy4, reRhy5], normRhythmF, none⟩
def specLARS : FieldSpec := ⟨.LA_reservoir_strain_pct, [reLARS1, reLARS2], normRoundF 1, none⟩
def specPVSD : FieldSpec := ⟨.PV_SD_ratio, [rePVSD1, rePVSD2], normRoundF 2, none⟩
def specIVRT : FieldSpec := ⟨.IVRT_ms, [reIVRT1, reIVRT2], normRoundF 0, none⟩
def specPASP : FieldSpec := ⟨.PASP_mmHg, [rePASP1, rePASP2, rePASP3], normRoundF 0, some derivePASP⟩
def specRAP : FieldSpec := ⟨.RA_pressure_mmHg, [reRAP], normRoundF 0, none⟩
def specGLS : FieldSpec := ⟨.LV_GLS_pct, [reGLS], normRoundF 1, none⟩
def specStiff : FieldSpec := ⟨.LA_stiffness_index, [], normRoundF 2, some deriveStiff⟩
def specExEE : FieldSpec := ⟨.E_over_eprime_avg_exercise, [reExEE], normRoundF 2, none⟩
def specExTR : FieldSpec := ⟨.TR_Vmax_exercise_m_s, [reExTR], normRoundF 2, none⟩

/-- The registry, in the source's declaration order (the order of both
passes of `parseReport`). -/
def SPECS : List FieldSpec :=
  [specMV_E, specMV_A, specEA, specDT, specEpS, specEpL, specEpA,
   specEoS, specEoL, specEoA, specTR, specLAVI, specLAvol, specBSA,
   specHR, specBPsys, specBPdia, specRhythm, specLARS, specPVSD,
   specIVRT, specPASP, specRAP, specGLS, specStiff, specExEE, specExTR]

/-- The inner rule loop of pass 1 for one field: try the patterns in
order; on a match whose normalization is non-null, store and stop; on
the blood-pressure fields with both captures truthy, store both
entries in the same step and stop; otherwise keep trying. -/
def tryPatterns (t : List Char) (sp : FieldSpec) (bag : Bag) : List RE → Bag
  | [] => bag
  | rx :: rest =>
    match execRe rx t with
    | none => tryPatterns t sp bag rest
    | some m =>
      match sp.normalize (m.g 1) (m.g 2) bag m.m0 with
      | some v => bag.set sp.key (some v)
      | none =>
        if (sp.key = .BP_sys ∨ sp.key = .BP_dia) ∧ truthyS (m.g 1) ∧ truthyS (m.g 2) then
          (bag.set .BP_sys ((jsRoundO (toNum (m.g 1)) 0).map CanonValue.num)).set
            .BP_dia ((jsRoundO (toNum (m.g 2)) 0).map CanonValue.num)
        else tryPatterns t sp bag rest

/-- Pass 1 of `parseReport`: direct match + normalize over the
registry in order, starting from a fresh bag. -/
def pass1 (t : String) : Bag :=
  SPECS.foldl (fun bag sp => tryPatterns t.data sp bag sp.patterns) emptyBag

/-- One pass-2 step: derivation fills the field only when its entry is
still absent and a derivation function exists. -/
def deriveStep (bag : Bag) (sp : FieldSpec) : Bag :=
  match sp.derive with
  | none => bag
  | some d =>
    if bag.get sp.key = none then
      match d bag with
      | some v => bag.set sp.key (some v)
      | none => bag
    else bag

/-- Pass 2 of `parseReport`: one derivation sweep over the registry in
order. -/
def pass2 (b : Bag) : Bag := SPECS.foldl deriveStep b

/-- The extraction entry point `parseReport`. -/
def parseReport (t : String) : Bag := pass2 (pass1 t)

/-- Registry entry in effectful form: normalization and derivation may
signal a JS exception, modelled as `Except.error`. -/
structure FieldSpecE where
  key : FieldKey
  patterns : List RE
  normalizeE : Option String → Option String → Bag → String → Except String (Option CanonValue)
  deriveE : Option (Bag → Except String (Option CanonValue))

/-- The pass-1 inner loop with exception points: the source calls
`spec.normalize` with no try/catch around it, so a thrown error
propagates out of the whole parse. -/
def tryPatternsE (t : List Char) (sp : FieldSpecE) (bag : Bag) : List RE → Except String Bag
  | [] => .ok bag
  | rx :: rest =>
    match execRe rx t with
    | none => tryPatternsE t sp bag rest
    | some m =>
      match sp.normalizeE (m.g 1) (m.g 2) bag m.m0 with
      | .error e => .error e
      | .ok (some v) => .ok (bag.set sp.key (some v))
      | .ok none =>
        if (sp.key = .BP_sys ∨ sp.key = .BP_dia) ∧ truthyS (m.g 1) ∧ truthyS (m.g 2) then
          .ok ((bag.set .BP_sys ((jsRoundO (toNum (m.g 1)) 0).map CanonValue.num)).set
            .BP_dia ((jsRoundO (toNum (m.g 2)) 0).map CanonValue.num))
        else tryPatternsE t sp bag rest

/-- Pass 1 with exception points over a spec list. -/
def pass1E (specs : List FieldSpecE) (t : String) : Except String Bag :=
  specs.foldlM (fun bag sp => tryPatternsE t.data sp bag sp.patterns) emptyBag

/-- One pass-2 step with exception points: the source wraps the
derivation call in try/catch, so a thrown error leaves the bag
unchanged and the sweep continues with the next field. -/
def deriveStepE (bag : Bag) (sp : FieldSpecE) : Bag :=
  match sp.deriveE with
  | none => bag
  | some d =>
    if bag.get sp.key = none then
      match d bag with
      | .ok (some v) => bag.set sp.key (some v)
      | .ok none => bag
      | .error _ => bag
    else bag

/-- The engine with its exception points made explicit: pass 1 may
propagate a normalization error, pass 2 never fails. -/
def runEngineE (specs : List FieldSpecE) (t : String) : Except String Bag :=
  (pass1E specs t).map (fun b => specs.foldl deriveStepE b)

/-- A pure registry entry, lifted: its functions never throw. -/
def liftSpec (sp : FieldSpec) : FieldSpecE :=
  ⟨sp.key, sp.patterns, fun v u b m => .ok (sp.normalize v u b m),
    sp.derive.map (fun d => fun b => .ok (d b))⟩

/-- The concrete `parseReport` with its exception points explicit. -/
def parseReportE (t : String) : Except String Bag :=
  runEngineE (SPECS.map liftSpec) t

/-- The LA stiffness derivation, restated on the two operand values it
reads, following the claim's words: E over average e-prime ÷ LA
reservoir strain, defined only when both operands are present and the
strain is nonzero. -/
def stiffFromOperands (eo lars : Option ℚ) : Option ℚ :=
  match eo, lars with
  | some e, some l => if l ≠ 0 then some (jsRound (e / l) 2) else none
  | _, _ => none

/-- A field spec whose normalizer always throws: the engine aborts on
it because pass 1 has no try/catch. -/
def throwingNormSpec : FieldSpecE :=
  ⟨FieldKey.HR_bpm, [RE.eps], fun _ _ _ _ => .error "boom", none⟩

/-- A field spec whose derivation always throws: pass 2's try/catch
contains it. -/
def throwingDeriveSpec : FieldSpecE :=
  ⟨FieldKey.LA_stiffness_index, [], fun _ _ _ _ => .ok none,
    some (fun _ => .error "derive boom")⟩

/-- The hand-rolled floor agrees with Mathlib's. -/
theorem qfloor_eq_floor (q : ℚ) : qfloor q = Int.floor q := by
  rw [qfloor, Rat.floor_def]

/-- The hand-rolled rounding agrees with Mathlib's half-up `round`. -/
theorem qround_eq_round (x : ℚ) : qround x = round x := by
  rw [qround, qfloor_eq_floor, round_eq]

/-- Reading a just-set bag entry. -/
theorem Bag.get_set (b : Bag) (k : FieldKey) (v : Option CanonValue) (k2 : FieldKey) :
    (b.set k v).get k2 = if k2 = k then v else b.get k2 := rfl

/-- A pass-2 step changes no key other than its own. -/
theorem deriveStep_get_ne (b : Bag) (sp : FieldSpec) (k : FieldKey) (h : sp.key ≠ k) :
    (deriveStep b sp).get k = b.get k := by
  cases hd : sp.derive with
  | none => simp [deriveStep, hd]
  | some d =>
    by_cases hg : b.get sp.key = none
    · cases hdb : d b with
      | some v => simp [deriveStep, hd, hg, hdb, Bag.get_set, Ne.symm h]
      | none => simp [deriveStep, hd, hg, hdb]
    · simp [deriveStep, hd, hg]

/-- A pass-2 step never overwrites a present entry. -/
theorem deriveStep_get_some (b : Bag) (sp : FieldSpec) (k : FieldKey) (v : CanonValue)
    (h : b.get k = some v) : (deriveStep b sp).get k = some v := by
  by_cases hk : sp.key = k
  · have hg : ¬ b.get sp.key = none := by rw [hk, h]; exact fun hh => Option.noConfusion hh
    cases hd : sp.derive with
    | none => simp [deriveStep, hd, h]
    | some d => simp [deriveStep, hd, hg, h]
  · rw [deriveStep_get_ne b sp k hk]; exact h

/-- A pass-2 sweep over specs whose keys avoid `k` leaves `k` alone. -/
theorem foldl_deriveStep_ne (specs : List FieldSpec) (b : Bag) (k : FieldKey)
    (h : ∀ sp ∈ specs, sp.key ≠ k) :
    (specs.foldl deriveStep b).get k = b.get k := by
  induction specs generalizing b with
  | nil => rfl
  | cons sp rest ih =>
    rw [List.foldl_cons, ih _ (fun s hs => h s (List.mem_cons_of_mem _ hs))]
    exact deriveStep_get_ne b sp k (h sp (List.mem_cons_self _ _))

/-- A pass-2 sweep never overwrites a present entry. -/
theorem foldl_deriveStep_some (specs : List FieldSpec) (b : Bag) (k : FieldKey) (v : CanonValue)
    (h : b.get k = some v) :
    (specs.foldl deriveStep b).get k = some v := by
  induction specs generalizing b with
  | nil => exact h
  | cons sp rest ih =>
    rw [List.foldl_cons]
    exact ih _ (deriveStep_get_some b sp k v h)

/-- The pass-1 inner loop writes only its own key and the two
blood-pressure keys. -/
theorem tryPatterns_get_ne (t : List Char) (sp : FieldSpec) (bag : Bag) (pats : List RE)
    (k : FieldKey) (h1 : k ≠ sp.key) (h2 : k ≠ .BP_sys) (h3 : k ≠ .BP_dia) :
    (tryPatterns t sp bag pats).get k = bag.get k := by
  induction pats with
  | nil => rfl
  | cons rx rest ih =>
    cases hex : execRe rx t with
    | none => simpa [tryPatterns, hex] using ih
    | some m =>
      cases hn : sp.normalize (m.g 1) (m.g 2) bag m.m0 with
      | some v => simp [tryPatterns, hex, hn, Bag.get_set, h1]
      | none =>
        by_cases hbp : (sp.key = FieldKey.BP_sys ∨ sp.key = FieldKey.BP_dia) ∧
            truthyS (m.g 1) = true ∧ truthyS (m.g 2) = true
        · simp [tryPatterns, hex, hn, hbp, Bag.get_set, h2, h3]
        · simpa [tryPatterns, hex, hn, hbp] using ih

/-- A pass-1 sweep leaves `k` alone when every spec either has a
different key or an empty rule list, and `k` is not a BP key. -/
theorem pass1_fold_ne (specs : List FieldSpec) (t : List Char) (bag : Bag) (k : FieldKey)
    (h : ∀ sp ∈ specs, k ≠ sp.key ∨ sp.patterns = [])
    (h2 : k ≠ .BP_sys) (h3 : k ≠ .BP_dia) :
    (specs.foldl (fun bag sp => tryPatterns t sp bag sp.patterns) bag).get k = bag.get k := by
  induction specs generalizing bag with
  | nil => rfl
  | cons sp rest ih =>
    rw [List.foldl_cons, ih _ (fun s hs => h s (List.mem_cons_of_mem _ hs))]
    rcases h sp (List.mem_cons_self _ _) with h1 | hp
    · exact tryPatterns_get_ne t sp bag sp.patterns k h1 h2 h3
    · rw [hp]; rfl

/-- The LA stiffness field has no recognition rules, so pass 1 never
populates it, for any input text. -/
theorem pass1_get_stiff (t : String) : (pass1 t).get .LA_stiffness_index = none := by
  unfold pass1
  rw [pass1_fold_ne SPECS t.data emptyBag _ (by decide) (by decide) (by decide)]
  rfl

/-- Value of a derived field after pass 2, when it was absent before:
splitting the sweep at its spec, the field receives exactly its
derivation function applied to the intermediate bag. -/
theorem pass2_get_derived (PRE POST : List FieldSpec) (sp : FieldSpec)
    (d : Bag → Option CanonValue) (b : Bag)
    (hS : SPECS = PRE ++ sp :: POST)
    (hd : sp.derive = some d)
    (hPre : ∀ s ∈ PRE, s.key ≠ sp.key)
    (hPost : ∀ s ∈ POST, s.key ≠ sp.key)
    (hb : b.get sp.key = none) :
    (pass2 b).get sp.key = d (PRE.foldl deriveStep b) := by
  have hb2 : (PRE.foldl deriveStep b).get sp.key = none := by
    rw [foldl_deriveStep_ne PRE b sp.key hPre]; exact hb
  unfold pass2
  rw [hS, List.foldl_append, List.foldl_cons]
  cases hdb : d (PRE.foldl deriveStep b) with
  | some v =>
    have hstep : deriveStep (PRE.foldl deriveStep b) sp =
        (PRE.foldl deriveStep b).set sp.key (some v) := by
      simp [deriveStep, hd, hb2, hdb]
    rw [hstep]
    exact foldl_deriveStep_some POST _ _ _ (by rw [Bag.get_set, if_pos rfl])
  | none =>
    have hstep : deriveStep (PRE.foldl deriveStep b) sp = PRE.foldl deriveStep b := by
      simp [deriveStep, hd, hb2, hdb]
    rw [hstep, foldl_deriveStep_ne POST _ sp.key hPost]
    exact hb2

/-- Pass 2 on a bag lacking EA_ratio with E and A present, A nonzero:
the ratio is filled with round(E ÷ A, 2). -/
theorem pass2_fills_EA (b : Bag) (e a : ℚ)
    (hb : b.get .EA_ratio = none)
    (hE : b.get .MV_E_m_s = some (.num e))
    (hA : b.get .MV_A_m_s = some (.num a)) (ha : a ≠ 0) :
    (pass2 b).get .EA_ratio = some (.num (jsRound (e / a) 2)) := by
  refine (pass2_get_derived (SPECS.take 2) (SPECS.drop 3) specEA deriveEA b rfl rfl
    (by decide) (by decide) hb).trans ?_
  have hE2 := foldl_deriveStep_some (SPECS.take 2) b _ _ hE
  have hA2 := foldl_deriveStep_some (SPECS.take 2) b _ _ hA
  simp [deriveEA, getNum, hE2, hA2, ha]

/-- Pass 2 on a bag lacking the e-prime average with septal and
lateral present: the average is filled with round((s + l) ÷ 2, 2). -/
theorem pass2_fills_EpAvg (b : Bag) (s l : ℚ)
    (hb : b.get .eprime_avg_cm_s = none)
    (hs : b.get .eprime_septal_cm_s = some (.num s))
    (hl : b.get .eprime_lateral_cm_s = some (.num l)) :
    (pass2 b).get .eprime_avg_cm_s = some (.num (jsRound ((s + l) / 2) 2)) := by
  refine (pass2_get_derived (SPECS.take 6) (SPECS.drop 7) specEpA deriveEpAvg b rfl rfl
    (by decide) (by decide) hb).trans ?_
  have hs2 := foldl_deriveStep_some (SPECS.take 6) b _ _ hs
  have hl2 := foldl_deriveStep_some (SPECS.take 6) b _ _ hl
  simp [deriveEpAvg, getNum, hs2, hl2]

/-- Pass 2 on a bag lacking E over septal e-prime with E and a nonzero
septal e-prime present: filled with round(E·100 ÷ e′, 2). -/
theorem pass2_fills_EoS (b : Bag) (e ec : ℚ)
    (hb : b.get .E_over_eprime_septal = none)
    (hE : b.get .MV_E_m_s = some (.num e))
    (hc : b.get .eprime_septal_cm_s = some (.num ec)) (hec : ec ≠ 0) :
    (pass2 b).get .E_over_eprime_septal = some (.num (jsRound (e * 100 / ec) 2)) := by
  refine (pass2_get_derived (SPECS.take 7) (SPECS.drop 8) specEoS deriveEoS b rfl rfl
    (by decide) (by decide) hb).trans ?_
  have hE2 := foldl_deriveStep_some (SPECS.take 7) b _ _ hE
  have hc2 := foldl_deriveStep_some (SPECS.take 7) b _ _ hc
  simp [deriveEoS, getNum, hE2, hc2, hec]

/-- Pass 2 on a bag lacking E over lateral e-prime with E and a
nonzero lateral e-prime present: filled with round(E·100 ÷ e′, 2). -/
theorem pass2_fills_EoL (b : Bag) (e ec : ℚ)
    (hb : b.get .E_over_eprime_lateral = none)
    (hE : b.get .MV_E_m_s = some (.num e))
    (hc : b.get .eprime_lateral_cm_s = some (.num ec)) (hec : ec ≠ 0) :
    (pass2 b).get .E_over_eprime_lateral = some (.num (jsRound (e * 100 / ec) 2)) := by
  refine (pass2_get_derived (SPECS.take 8) (SPECS.drop 9) specEoL deriveEoL b rfl rfl
    (by decide) (by decide) hb).trans ?_
  have hE2 := foldl_deriveStep_some (SPECS.take 8) b _ _ hE
  have hc2 := foldl_deriveStep_some (SPECS.take 8) b _ _ hc
  simp [deriveEoL, getNum, hE2, hc2, hec]

/-- Pass 2 on a bag lacking E over average e-prime with E and a
nonzero e-prime average present: filled with round(E·100 ÷ e′avg, 2). -/
theorem pass2_fills_EoA (b : Bag) (e m : ℚ)
    (hb : b.get .E_over_eprime_avg = none)
    (hE : b.get .MV_E_m_s = some (.num e))
    (hm : b.get .eprime_avg_cm_s = some (.num m)) (hm0 : m ≠ 0) :
    (pass2 b).get .E_over_eprime_avg = some (.num (jsRound (e * 100 / m) 2)) := by
  refine (pass2_get_derived (SPECS.take 9) (SPECS.drop 10) specEoA deriveEoA b rfl rfl
    (by decide) (by decide) hb).trans ?_
  have hE2 := foldl_deriveStep_some (SPECS.take 9) b _ _ hE
  have hm2 := foldl_deriveStep_some (SPECS.take 9) b _ _ hm
  simp [deriveEoA, getNum, hE2, hm2, hm0]

/-- The E over average e-prime derivation falls back to the inline
unrounded septal/lateral mean when the e-prime average entry is
absent. -/
theorem deriveEoA_fallback (b : Bag) (e s l : ℚ)
    (hm : b.get .eprime_avg_cm_s = none)
    (hE : b.get .MV_E_m_s = some (.num e))
    (hs : b.get .eprime_septal_cm_s = some (.num s))
    (hl : b.get .eprime_lateral_cm_s = some (.num l))
    (hne : (s + l) / 2 ≠ 0) :
    deriveEoA b = some (.num (jsRound (e * 100 / ((s + l) / 2)) 2)) := by
  simp [deriveEoA, getNum, hm, hE, hs, hl, hne]

/-- Pass 2 on a bag lacking LAVI with LA volume and a nonzero BSA
present: filled with round(volume ÷ BSA, 1). -/
theorem pass2_fills_LAVI (b : Bag) (vol bsa : ℚ)
    (hb : b.get .LAVI_ml_m2 = none)
    (hv : b.get .LA_volume_ml = some (.num vol))
    (hs : b.get .BSA_m2 = some (.num bsa)) (hbsa : bsa ≠ 0) :
    (pass2 b).get .LAVI_ml_m2 = some (.num (jsRound (vol / bsa) 1)) := by
  refine (pass2_get_derived (SPECS.take 11) (SPECS.drop 12) specLAVI deriveLAVI b rfl rfl
    (by decide) (by decide) hb).trans ?_
  have hv2 := foldl_deriveStep_some (SPECS.take 11) b _ _ hv
  have hs2 := foldl_deriveStep_some (SPECS.take 11) b _ _ hs
  simp [deriveLAVI, getNum, hv2, hs2, hbsa]

/-- Pass 2 on a bag lacking PASP with TR Vmax and RA pressure
present: filled with round(4·TR² + RAP, 0). -/
theorem pass2_fills_PASP (b : Bag) (tr rap : ℚ)
    (hb : b.get .PASP_mmHg = none)
    (ht : b.get .TR_Vmax_m_s = some (.num tr))
    (hr : b.get .RA_pressure_mmHg = some (.num rap)) :
    (pass2 b).get .PASP_mmHg = some (.num (jsRound (4 * tr * tr + rap) 0)) := by
  refine (pass2_get_derived (SPECS.take 21) (SPECS.drop 22) specPASP derivePASP b rfl rfl
    (by decide) (by decide) hb).trans ?_
  have ht2 := foldl_deriveStep_some (SPECS.take 21) b _ _ ht
  have hr2 := foldl_deriveStep_some (SPECS.take 21) b _ _ hr
  simp [derivePASP, getNum, ht2, hr2]

/-- Pass 2 on a bag lacking the LA stiffness index with E over average
e-prime and a nonzero LA reservoir strain present: filled with
round(E over e-prime average ÷ strain, 2). -/
theorem pass2_fills_Stiff (b : Bag) (eo lars : ℚ)
    (hb : b.get .LA_stiffness_index = none)
    (he : b.get .E_over_eprime_avg = some (.num eo))
    (hl : b.get .LA_reservoir_strain_pct = some (.num lars)) (hl0 : lars ≠ 0) :
    (pass2 b).get .LA_stiffness_index = some (.num (jsRound (eo / lars) 2)) := by
  refine (pass2_get_derived (SPECS.take 24) (SPECS.drop 25) specStiff deriveStiff b rfl rfl
    (by decide) (by decide) hb).trans ?_
  have he2 := foldl_deriveStep_some (SPECS.take 24) b _ _ he
  have hl2 := foldl_deriveStep_some (SPECS.take 24) b _ _ hl
  simp [deriveStiff, getNum, he2, hl2, hl0]

/-- The derivation function of the stiffness field computes exactly
the operand formula. -/
theorem deriveStiff_eq (b : Bag) :
    deriveStiff b = (stiffFromOperands (getNum b .E_over_eprime_avg)
      (getNum b .LA_reservoir_strain_pct)).map CanonValue.num := by
  unfold deriveStiff stiffFromOperands
  cases getNum b .E_over_eprime_avg <;> cases getNum b .LA_reservoir_strain_pct <;> simp
  split <;> simp

/-- Claim C2: a bag entry set in pass 1 is never overwritten in pass
2; derivation is attempted only for keys still absent, so the pass-1
value is the value present in the bag returned by parse. -/
theorem claim_C2_pass1_entries_persist : ∀ (t : String) (k : FieldKey) (v : CanonValue),
    (pass1 t).get k = some v → (parseReport t).get k = some v := by
  intro t k v h
  unfold parseReport pass2
  exact foldl_deriveStep_some SPECS _ _ _ h

/-- Witness for C2 at a concrete report: the directly matched
deceleration time survives pass 2 unchanged. -/
theorem claim_C2_witness :
    (pass1 "DT 120 ms").get FieldKey.DT_ms = some (.num 120) ∧
    (parseReport "DT 120 ms").get FieldKey.DT_ms = some (.num 120) :=
  ⟨by decide, claim_C2_pass1_entries_persist "DT 120 ms" FieldKey.DT_ms (.num 120) (by decide)⟩

/-- Claim C7 (code bug): the mitral-velocity normalizer tests
`/m\/s/i` before `/cm\/s/i`, and `m/s` occurs inside the string
`cm/s`, so a cm/s unit token is treated as m/s and the documented
divide-by-100 conversion never runs: "MV E 80 cm/s" stores 80, not
0.80.  The spec's own example text "E 80 cm/s" matches no rule at all.
The tissue-Doppler direction does convert (its cm/s test comes first
and `cm/s` is not a substring of `m/s`). -/
theorem claim_C7_unit_conversion_bug :
    (parseReport "MV E 80 cm/s").get FieldKey.MV_E_m_s = some (.num 80) ∧
    normVel (some "80") (some "cm/s") = some 80 ∧
    containsCI "m/s".data "cm/s".data = true ∧
    (parseReport "E 80 cm/s").get FieldKey.MV_E_m_s = none ∧
    (parseReport "MV E 0.8 m/s").get FieldKey.MV_E_m_s = some (.num 0.8) ∧
    normEp (some "8") (some "m/s") = some 800 := by
  exact ⟨by decide, by decide, by decide, by decide, by decide, by decide⟩

/-- Claim C8: parse is deterministic and pure; it is modelled as a
plain function of the input text (the registry regexes carry no global
flag, so `exec` reads no `lastIndex` state, and each call folds over a
fresh bag), hence identical inputs give identical bags. -/
theorem claim_C8_deterministic : ∀ t1 t2 : String, t1 = t2 → parseReport t1 = parseReport t2 := by
  intro t1 t2 h
  rw [h]

/-- Witness for C8 at a concrete input. -/
theorem claim_C8_witness : parseReport "HR 70 bpm" = parseReport "HR 70 bpm" :=
  claim_C8_deterministic "HR 70 bpm" "HR 70 bpm" rfl

/-- Claim C9: "BP 128/82 mmHg" sets both blood-pressure fields from
the one combined match; processing the BP_sys spec alone already sets
both entries in the same step, and the BP normalizer is constantly
null, so the single-value normalize path is bypassed. -/
theorem claim_C9_bp_dual_capture :
    (parseReport "BP 128/82 mmHg").get FieldKey.BP_sys = some (.num 128) ∧
    (parseReport "BP 128/82 mmHg").get FieldKey.BP_dia = some (.num 82) ∧
    (tryPatterns "BP 128/82 mmHg".data specBPsys emptyBag specBPsys.patterns).get
      FieldKey.BP_sys = some (.num 128) ∧
    (tryPatterns "BP 128/82 mmHg".data specBPsys emptyBag specBPsys.patterns).get
      FieldKey.BP_dia = some (.num 82) ∧
    (∀ v u b m, normNullF v u b m = none) :=
  ⟨by decide, by decide, by decide, by decide, fun _ _ _ _ => rfl⟩

/-- Claim C10: the LA stiffness index has an empty rule list, so pass
1 never populates it for any text; the returned bag holds it exactly
when pass 2 derived it from the resolved E over average e-prime and a
nonzero LA reservoir strain. -/
theorem claim_C10_stiffness_only_derived : ∀ t : String,
    (pass1 t).get FieldKey.LA_stiffness_index = none ∧
    (parseReport t).get FieldKey.LA_stiffness_index =
      (stiffFromOperands (getNum (parseReport t) FieldKey.E_over_eprime_avg)
        (getNum (parseReport t) FieldKey.LA_reservoir_strain_pct)).map CanonValue.num := by
  intro t
  refine ⟨pass1_get_stiff t, ?_⟩
  have hb0 : (pass1 t).get FieldKey.LA_stiffness_index = none := pass1_get_stiff t
  have hsplit : pass2 (pass1 t) = (SPECS.drop 25).foldl deriveStep
      (deriveStep ((SPECS.take 24).foldl deriveStep (pass1 t)) specStiff) := by
    show (SPECS.take 24 ++ specStiff :: SPECS.drop 25).foldl deriveStep (pass1 t) = _
    rw [List.foldl_append, List.foldl_cons]
  have h1 : (pass2 (pass1 t)).get FieldKey.LA_stiffness_index =
      deriveStiff ((SPECS.take 24).foldl deriveStep (pass1 t)) :=
    pass2_get_derived (SPECS.take 24) (SPECS.drop 25) specStiff deriveStiff (pass1 t)
      rfl rfl (by decide) (by decide) hb0
  have hEoA : (pass2 (pass1 t)).get FieldKey.E_over_eprime_avg =
      ((SPECS.take 24).foldl deriveStep (pass1 t)).get FieldKey.E_over_eprime_avg := by
    rw [hsplit, foldl_deriveStep_ne _ _ _ (by decide), deriveStep_get_ne _ _ _ (by decide)]
  have hLARS : (pass2 (pass1 t)).get FieldKey.LA_reservoir_strain_pct =
      ((SPECS.take 24).foldl deriveStep (pass1 t)).get FieldKey.LA_reservoir_strain_pct := by
    rw [hsplit, foldl_deriveStep_ne _ _ _ (by decide), deriveStep_get_ne _ _ _ (by decide)]
  have gEoA : getNum (pass2 (pass1 t)) FieldKey.E_over_eprime_avg =
      getNum ((SPECS.take 24).foldl deriveStep (pass1 t)) FieldKey.E_over_eprime_avg := by
    unfold getNum
    rw [hEoA]
  have gLARS : getNum (pass2 (pass1 t)) FieldKey.LA_reservoir_strain_pct =
      getNum ((SPECS.take 24).foldl deriveStep (pass1 t)) FieldKey.LA_reservoir_strain_pct := by
    unfold getNum
    rw [hLARS]
  show (pass2 (pass1 t)).get FieldKey.LA_stiffness_index =
    (stiffFromOperands (getNum (pass2 (pass1 t)) FieldKey.E_over_eprime_avg)
      (getNum (pass2 (pass1 t)) FieldKey.LA_reservoir_strain_pct)).map CanonValue.num
  rw [h1, deriveStiff_eq, gEoA, gLARS]

/-- Claim C3 counterexample: on "MV E .. E wave 5" the first mitral-E
rule does match (capturing the token "."), its normalization is null,
and the engine then consults the second rule, whose capture 5 is what
the bag receives — so a matching rule does not always win. -/
theorem claim_C3_counterexample :
    (execRe reMVE1 "MV E .. E wave 5".data).map (fun m => m.g 1) = some (some ".") ∧
    specMV_E.normalize (some ".") none emptyBag "MV E .. " = none ∧
    (parseReport "MV E .. E wave 5").get FieldKey.MV_E_m_s = some (.num 5) :=
  ⟨by decide, by decide, by decide⟩

/-- The rule loop for a non-blood-pressure field equals the first
non-null result of match-then-normalize over the rule list. -/
theorem tryPatterns_eq_findSome (t : List Char) (sp : FieldSpec) (bag : Bag)
    (h1 : sp.key ≠ FieldKey.BP_sys) (h2 : sp.key ≠ FieldKey.BP_dia) :
    ∀ pats : List RE, tryPatterns t sp bag pats =
      match pats.findSome? (fun rx => (execRe rx t).bind
          (fun m => sp.normalize (m.g 1) (m.g 2) bag m.m0)) with
      | some v => bag.set sp.key (some v)
      | none => bag := by
  intro pats
  induction pats with
  | nil => rfl
  | cons rx rest ih =>
    cases hex : execRe rx t with
    | none => simp [tryPatterns, List.findSome?, hex, ih]
    | some m =>
      cases hn : sp.normalize (m.g 1) (m.g 2) bag m.m0 with
      | some v => simp [tryPatterns, List.findSome?, hex, hn]
      | none =>
        have hbp : ¬((sp.key = FieldKey.BP_sys ∨ sp.key = FieldKey.BP_dia) ∧
            truthyS (m.g 1) = true ∧ truthyS (m.g 2) = true) := by
          rintro ⟨h12, -⟩
          rcases h12 with h | h
          · exact h1 h
          · exact h2 h
        simp [tryPatterns, List.findSome?, hex, hn, hbp, ih]

/-- Claim C3 as amended: for every non-blood-pressure field the rule
loop stores the value of the first rule that both matches and whose
capture normalizes to a non-null value; a rule that matches but
normalizes to null is skipped and later rules are consulted. -/
theorem claim_C3_first_success_wins (t : List Char) (sp : FieldSpec) (bag : Bag)
    (h1 : sp.key ≠ FieldKey.BP_sys) (h2 : sp.key ≠ FieldKey.BP_dia) :
    tryPatterns t sp bag sp.patterns =
      match sp.patterns.findSome? (fun rx => (execRe rx t).bind
          (fun m => sp.normalize (m.g 1) (m.g 2) bag m.m0)) with
      | some v => bag.set sp.key (some v)
      | none => bag :=
  tryPatterns_eq_findSome t sp bag h1 h2 sp.patterns

/-- Witness for the amended C3 at a concrete field and text. -/
theorem claim_C3_witness :
    specDT.key ≠ FieldKey.BP_sys ∧ specDT.key ≠ FieldKey.BP_dia ∧
    tryPatterns "DT 120 ms".data specDT emptyBag specDT.patterns =
      match specDT.patterns.findSome? (fun rx => (execRe rx "DT 120 ms".data).bind
          (fun m => specDT.normalize (m.g 1) (m.g 2) emptyBag m.m0)) with
      | some v => emptyBag.set specDT.key (some v)
      | none => emptyBag :=
  ⟨by decide, by decide,
    claim_C3_first_success_wins "DT 120 ms".data specDT emptyBag (by decide) (by decide)⟩

/-- Claim C4 counterexample: the empty token does not normalize to
absent — JS `Number("")` is 0, so the velocity normalizer returns the
canonical value 0 for it, and the generic round normalizer stores a
numeric 0. -/
theorem claim_C4_counterexample :
    toNum (some "") = some 0 ∧
    normVel (some "") none = some 0 ∧
    normRoundF 2 (some "") none emptyBag "" = some (.num 0) :=
  ⟨by decide, by decide, by decide⟩

/-- Claim C4 as amended: a matched token that is malformed (non-numeric
after stripping, hence NaN) normalizes to absent, never to zero or an
error; a token of numeric value exactly 0 — which includes the empty
token, though no rule can capture one — yields the canonical value 0,
which is stored in the bag and thereby distinguished from a missing
key. -/
theorem claim_C4_malformed_absent_zero_kept :
    (∀ s u, toNum (some s) = none → normVel (some s) u = none) ∧
    (∀ s u, toNum (some s) = none → normEp (some s) u = none) ∧
    (∀ d s u b m, toNum (some s) = none → normRoundF d (some s) u b m = none) ∧
    (∀ s u, toNum (some s) = some 0 → normVel (some s) u = some 0) ∧
    (∀ d s u b m, toNum (some s) = some 0 → normRoundF d (some s) u b m = some (.num 0)) ∧
    toNum (some ".") = none ∧
    (parseReport "DT 0 ms").get FieldKey.DT_ms = some (.num 0) := by
  refine ⟨?_, ?_, ?_, ?_, ?_, by decide, by decide⟩
  · intro s u h
    simp [normVel, h]
  · intro s u h
    simp [normEp, h]
  · intro d s u b m h
    simp [normRoundF, jsRoundO, h]
  · intro s u h
    rcases u with _ | us
    · simp [normVel, h]
      decide
    · simp [normVel, h]
      decide
  · intro d s u b m h
    simp [normRoundF, jsRoundO, h, jsRound]
    decide

/-- Witness for the amended C4: the malformed token "1.2.3" from the
velocity token grammar normalizes to absent, and the zero token "0"
keeps the value 0. -/
theorem claim_C4_witness :
    toNum (some "1.2.3") = none ∧ normVel (some "1.2.3") none = none ∧
    toNum (some "0") = some 0 ∧ normVel (some "0") none = some 0 :=
  ⟨by decide,
    claim_C4_malformed_absent_zero_kept.1 "1.2.3" none (by decide),
    by decide,
    (claim_C4_malformed_absent_zero_kept.2.2.2.1 : ∀ s u, _) "0" none (by decide)⟩

/-- EA derivation is absent when A is present but zero. -/
theorem deriveEA_zeroA (b : Bag) (h : getNum b .MV_A_m_s = some 0) : deriveEA b = none := by
  unfold deriveEA
  rw [h]
  cases getNum b .MV_E_m_s <;> simp

/-- Septal E over e-prime derivation is absent when the septal e-prime
is present but zero. -/
theorem deriveEoS_zero (b : Bag) (h : getNum b .eprime_septal_cm_s = some 0) :
    deriveEoS b = none := by
  unfold deriveEoS
  rw [h]
  cases getNum b .MV_E_m_s <;> simp

/-- Lateral E over e-prime derivation is absent when the lateral
e-prime is present but zero. -/
theorem deriveEoL_zero (b : Bag) (h : getNum b .eprime_lateral_cm_s = some 0) :
    deriveEoL b = none := by
  unfold deriveEoL
  rw [h]
  cases getNum b .MV_E_m_s <;> simp

/-- Average E over e-prime derivation is absent when the e-prime
average is present but zero (zero is not nullish, so the inline
fallback is not consulted). -/
theorem deriveEoA_zero (b : Bag) (h : getNum b .eprime_avg_cm_s = some 0) :
    deriveEoA b = none := by
  unfold deriveEoA
  rw [h]
  cases getNum b .MV_E_m_s <;> simp

/-- LAVI derivation is absent when BSA is present but zero. -/
theorem deriveLAVI_zero (b : Bag) (h : getNum b .BSA_m2 = some 0) : deriveLAVI b = none := by
  unfold deriveLAVI
  rw [h]
  cases getNum b .LA_volume_ml <;> simp

/-- LA stiffness derivation is absent when the reservoir strain is
present but zero. -/
theorem deriveStiff_zero (b : Bag) (h : getNum b .LA_reservoir_strain_pct = some 0) :
    deriveStiff b = none := by
  unfold deriveStiff
  rw [h]
  cases getNum b .E_over_eprime_avg <;> simp

/-- Claim C1: pass 2 fills each still-absent derived field with
exactly its documented formula — EA ratio, e-prime average, the three
E over e-prime ratios (the average variant falling back to the inline
septal/lateral mean when the e-prime average is absent at derivation
time), LAVI, PASP, and the LA stiffness index — and on the bag with TR
Vmax 2.8 and RA pressure 5 it derives PASP 36. -/
theorem claim_C1_derivation_formulas :
    (∀ (b : Bag) (e a : ℚ), b.get .EA_ratio = none →
      b.get .MV_E_m_s = some (.num e) → b.get .MV_A_m_s = some (.num a) → a ≠ 0 →
      (pass2 b).get .EA_ratio = some (.num (jsRound (e / a) 2))) ∧
    (∀ (b : Bag) (s l : ℚ), b.get .eprime_avg_cm_s = none →
      b.get .eprime_septal_cm_s = some (.num s) → b.get .eprime_lateral_cm_s = some (.num l) →
      (pass2 b).get .eprime_avg_cm_s = some (.num (jsRound ((s + l) / 2) 2))) ∧
    (∀ (b : Bag) (e ec : ℚ), b.get .E_over_eprime_septal = none →
      b.get .MV_E_m_s = some (.num e) → b.get .eprime_septal_cm_s = some (.num ec) → ec ≠ 0 →
      (pass2 b).get .E_over_eprime_septal = some (.num (jsRound (e * 100 / ec) 2))) ∧
    (∀ (b : Bag) (e ec : ℚ), b.get .E_over_eprime_lateral = none →
      b.get .MV_E_m_s = some (.num e) → b.get .eprime_lateral_cm_s = some (.num ec) → ec ≠ 0 →
      (pass2 b).get .E_over_eprime_lateral = some (.num (jsRound (e * 100 / ec) 2))) ∧
    (∀ (b : Bag) (e m : ℚ), b.get .E_over_eprime_avg = none →
      b.get .MV_E_m_s = some (.num e) → b.get .eprime_avg_cm_s = some (.num m) → m ≠ 0 →
      (pass2 b).get .E_over_eprime_avg = some (.num (jsRound (e * 100 / m) 2))) ∧
    (∀ (b : Bag) (e s l : ℚ), b.get .eprime_avg_cm_s = none →
      b.get .MV_E_m_s = some (.num e) → b.get .eprime_septal_cm_s = some (.num s) →
      b.get .eprime_lateral_cm_s = some (.num l) → (s + l) / 2 ≠ 0 →
      deriveEoA b = some (.num (jsRound (e * 100 / ((s + l) / 2)) 2))) ∧
    (∀ (b : Bag) (vol bsa : ℚ), b.get .LAVI_ml_m2 = none →
      b.get .LA_volume_ml = some (.num vol) → b.get .BSA_m2 = some (.num bsa) → bsa ≠ 0 →
      (pass2 b).get .LAVI_ml_m2 = some (.num (jsRound (vol / bsa) 1))) ∧
    (∀ (b : Bag) (eo lars : ℚ), b.get .LA_stiffness_index = none →
      b.get .E_over_eprime_avg = some (.num eo) →
      b.get .LA_reservoir_strain_pct = some (.num lars) → lars ≠ 0 →
      (pass2 b).get .LA_stiffness_index = some (.num (jsRound (eo / lars) 2))) ∧
    (∀ (b : Bag) (tr rap : ℚ), b.get .PASP_mmHg = none →
      b.get .TR_Vmax_m_s = some (.num tr) → b.get .RA_pressure_mmHg = some (.num rap) →
      (pass2 b).get .PASP_mmHg = some (.num (jsRound (4 * tr * tr + rap) 0))) ∧
    (pass2 [(FieldKey.TR_Vmax_m_s, some (.num 2.8)),
      (FieldKey.RA_pressure_mmHg, some (.num 5))]).get .PASP_mmHg = some (.num 36) :=
  ⟨pass2_fills_EA, pass2_fills_EpAvg, pass2_fills_EoS, pass2_fills_EoL, pass2_fills_EoA,
    deriveEoA_fallback, pass2_fills_LAVI, pass2_fills_Stiff, pass2_fills_PASP, by decide⟩

/-- Witness for C1: the spec's concrete example bag with E 0.8 and A
0.5 derives EA ratio 1.6. -/
theorem claim_C1_witness :
    (pass2 [(FieldKey.MV_E_m_s, some (.num 0.8)), (FieldKey.MV_A_m_s, some (.num 0.5))]).get
      FieldKey.EA_ratio = some (.num 1.6) :=
  (claim_C1_derivation_formulas.1 _ 0.8 0.5 (by decide) (by decide) (by decide)
    (by decide)).trans (by decide)

/-- Claim C5: a present but zero denominator dependency (A for the EA
ratio, the respective e-prime for the E over e-prime ratios, BSA for
LAVI, the reservoir strain for the stiffness index) leaves the
dependent derived field absent in pass 2's output; the divisions are
guarded, so no division by zero is ever performed. -/
theorem claim_C5_zero_denominator_guard :
    (∀ b : Bag, b.get .EA_ratio = none → b.get .MV_A_m_s = some (.num 0) →
      (pass2 b).get .EA_ratio = none) ∧
    (∀ b : Bag, b.get .E_over_eprime_septal = none → b.get .eprime_septal_cm_s = some (.num 0) →
      (pass2 b).get .E_over_eprime_septal = none) ∧
    (∀ b : Bag, b.get .E_over_eprime_lateral = none → b.get .eprime_lateral_cm_s = some (.num 0) →
      (pass2 b).get .E_over_eprime_lateral = none) ∧
    (∀ b : Bag, b.get .E_over_eprime_avg = none → b.get .eprime_avg_cm_s = some (.num 0) →
      (pass2 b).get .E_over_eprime_avg = none) ∧
    (∀ b : Bag, b.get .LAVI_ml_m2 = none → b.get .BSA_m2 = some (.num 0) →
      (pass2 b).get .LAVI_ml_m2 = none) ∧
    (∀ b : Bag, b.get .LA_stiffness_index = none →
      b.get .LA_reservoir_strain_pct = some (.num 0) →
      (pass2 b).get .LA_stiffness_index = none) := by
  refine ⟨?_, ?_, ?_, ?_, ?_, ?_⟩
  · intro b hb hA
    refine (pass2_get_derived (SPECS.take 2) (SPECS.drop 3) specEA deriveEA b rfl rfl
      (by decide) (by decide) hb).trans ?_
    exact deriveEA_zeroA _ (by simp [getNum, foldl_deriveStep_some (SPECS.take 2) b _ _ hA])
  · intro b hb hc
    refine (pass2_get_derived (SPECS.take 7) (SPECS.drop 8) specEoS deriveEoS b rfl rfl
      (by decide) (by decide) hb).trans ?_
    exact deriveEoS_zero _ (by simp [getNum, foldl_deriveStep_some (SPECS.take 7) b _ _ hc])
  · intro b hb hc
    refine (pass2_get_derived (SPECS.take 8) (SPECS.drop 9) specEoL deriveEoL b rfl rfl
      (by decide) (by decide) hb).trans ?_
    exact deriveEoL_zero _ (by simp [getNum, foldl_deriveStep_some (SPECS.take 8) b _ _ hc])
  · intro b hb hc
    refine (pass2_get_derived (SPECS.take 9) (SPECS.drop 10) specEoA deriveEoA b rfl rfl
      (by decide) (by decide) hb).trans ?_
    exact deriveEoA_zero _ (by simp [getNum, foldl_deriveStep_some (SPECS.take 9) b _ _ hc])
  · intro b hb hc
    refine (pass2_get_derived (SPECS.take 11) (SPECS.drop 12) specLAVI deriveLAVI b rfl rfl
      (by decide) (by decide) hb).trans ?_
    exact deriveLAVI_zero _ (by simp [getNum, foldl_deriveStep_some (SPECS.take 11) b _ _ hc])
  · intro b hb hc
    refine (pass2_get_derived (SPECS.take 24) (SPECS.drop 25) specStiff deriveStiff b rfl rfl
      (by decide) (by decide) hb).trans ?_
    exact deriveStiff_zero _ (by simp [getNum, foldl_deriveStep_some (SPECS.take 24) b _ _ hc])

/-- Witness for C5 at a concrete bag: E present, A present but zero,
and the EA ratio stays absent. -/
theorem claim_C5_witness :
    (pass2 [(FieldKey.EA_ratio, none), (FieldKey.MV_A_m_s, some (.num 0)),
      (FieldKey.MV_E_m_s, some (.num 0.8))]).get FieldKey.EA_ratio = none :=
  claim_C5_zero_denominator_guard.1 _ (by decide) (by decide)

/-- Lifted pure specs behave identically in the effectful rule loop. -/
theorem tryPatternsE_lift (t : List Char) (sp : FieldSpec) (bag : Bag) :
    ∀ pats, tryPatternsE t (liftSpec sp) bag pats = .ok (tryPatterns t sp bag pats) := by
  intro pats
  induction pats with
  | nil => rfl
  | cons rx rest ih =>
    cases hex : execRe rx t with
    | none => simp [tryPatternsE, tryPatterns, hex, ih]
    | some m =>
      cases hn : sp.normalize (m.g 1) (m.g 2) bag m.m0 with
      | some v => simp [tryPatternsE, tryPatterns, liftSpec, hex, hn]
      | none =>
        by_cases hbp : (sp.key = FieldKey.BP_sys ∨ sp.key = FieldKey.BP_dia) ∧
            truthyS (m.g 1) = true ∧ truthyS (m.g 2) = true
        · simp [tryPatternsE, tryPatterns, liftSpec, hex, hn, hbp]
        · simp only [tryPatternsE, tryPatterns, liftSpec, hex, hn]
          rw [if_neg hbp, if_neg hbp]
          exact ih

/-- Lifted pure specs make pass 1 of the effectful engine total. -/
theorem pass1E_lift_aux (t : String) : ∀ (specs : List FieldSpec) (bag : Bag),
    (specs.map liftSpec).foldlM (fun bag sp => tryPatternsE t.data sp bag sp.patterns) bag =
      .ok (specs.foldl (fun bag sp => tryPatterns t.data sp bag sp.patterns) bag) := by
  intro specs
  induction specs with
  | nil => intro bag; rfl
  | cons sp rest ih =>
    intro bag
    rw [List.map_cons, List.foldlM_cons, List.foldl_cons]
    rw [show (liftSpec sp).patterns = sp.patterns from rfl]
    rw [tryPatternsE_lift t.data sp bag sp.patterns]
    exact ih (tryPatterns t.data sp bag sp.patterns)

/-- Lifted pure specs behave identically in the effectful pass-2 step. -/
theorem deriveStepE_lift (b : Bag) (sp : FieldSpec) :
    deriveStepE b (liftSpec sp) = deriveStep b sp := by
  cases hd : sp.derive with
  | none => simp [deriveStepE, deriveStep, liftSpec, hd]
  | some d =>
    by_cases hg : b.get sp.key = none
    · cases hdb : d b with
      | some v => simp [deriveStepE, deriveStep, liftSpec, hd, hg, hdb]
      | none => simp [deriveStepE, deriveStep, liftSpec, hd, hg, hdb]
    · simp [deriveStepE, deriveStep, liftSpec, hd, hg]

/-- Lifted pure specs make the effectful pass 2 the pure pass 2. -/
theorem pass2E_lift : ∀ (specs : List FieldSpec) (b : Bag),
    (specs.map liftSpec).foldl deriveStepE b = specs.foldl deriveStep b := by
  intro specs
  induction specs with
  | nil => intro b; rfl
  | cons sp rest ih =>
    intro b
    rw [List.map_cons, List.foldl_cons, List.foldl_cons, deriveStepE_lift]
    exact ih (deriveStep b sp)

/-- A rule loop whose normalizer is total cannot fail. -/
theorem tryPatternsE_total (t : List Char) (sp : FieldSpecE) (bag : Bag)
    (h : ∀ v u b m, ∃ r, sp.normalizeE v u b m = .ok r) :
    ∀ pats, ∃ b2, tryPatternsE t sp bag pats = .ok b2 := by
  intro pats
  induction pats with
  | nil => exact ⟨bag, rfl⟩
  | cons rx rest ih =>
    cases hex : execRe rx t with
    | none =>
      obtain ⟨b2, hb2⟩ := ih
      exact ⟨b2, by simp [tryPatternsE, hex, hb2]⟩
    | some m =>
      obtain ⟨r, hr⟩ := h (m.g 1) (m.g 2) bag m.m0
      cases r with
      | some v => exact ⟨bag.set sp.key (some v), by simp [tryPatternsE, hex, hr]⟩
      | none =>
        by_cases hbp : (sp.key = FieldKey.BP_sys ∨ sp.key = FieldKey.BP_dia) ∧
            truthyS (m.g 1) = true ∧ truthyS (m.g 2) = true
        · exact ⟨(bag.set .BP_sys ((jsRoundO (toNum (m.g 1)) 0).map CanonValue.num)).set
            .BP_dia ((jsRoundO (toNum (m.g 2)) 0).map CanonValue.num),
            by simp [tryPatternsE, hex, hr, hbp]⟩
        · obtain ⟨b2, hb2⟩ := ih
          exact ⟨b2, by simp [tryPatternsE, hex, hr, hbp, hb2]⟩

/-- Pass 1 of the effectful engine is total when every normalizer is. -/
theorem pass1E_total (t : String) : ∀ (specs : List FieldSpecE) (bag : Bag),
    (∀ sp ∈ specs, ∀ v u b m, ∃ r, sp.normalizeE v u b m = .ok r) →
    ∃ b2, specs.foldlM (fun bag sp => tryPatternsE t.data sp bag sp.patterns) bag = .ok b2 := by
  intro specs
  induction specs with
  | nil => intro bag _; exact ⟨bag, rfl⟩
  | cons sp rest ih =>
    intro bag h
    obtain ⟨b2, hb2⟩ := tryPatternsE_total t.data sp bag
      (h sp (List.mem_cons_self _ _)) sp.patterns
    obtain ⟨b3, hb3⟩ := ih b2 (fun s hs => h s (List.mem_cons_of_mem _ hs))
    refine ⟨b3, ?_⟩
    rw [List.foldlM_cons, hb2]
    simpa using hb3

/-- Claim C6 counterexample: with a single misbehaving normalization
function in the registry, the whole parse aborts with its error — the
deceleration time that the same text would otherwise yield (second
conjunct) is lost — because pass 1 wraps no try/catch around
normalize.  Only derivation failures are isolated. -/
theorem claim_C6_counterexample :
    runEngineE [liftSpec specDT, throwingNormSpec] "DT 150 ms" = .error "boom" ∧
    (parseReport "DT 150 ms").get FieldKey.DT_ms = some (.num 150) :=
  ⟨rfl, by decide⟩

/-- Claim C6 as amended: the concrete parse never throws — its
registry's normalize and derive functions are total, and the effectful
rendering of `parseReport` always returns `ok` of the pure result —
and, generically, any registry whose normalizers are total never
throws, whatever its derivations do, since pass 2 isolates derivation
failures with try/catch. -/
theorem claim_C6_no_throw :
    (∀ t, parseReportE t = Except.ok (parseReport t)) ∧
    (∀ (specs : List FieldSpecE) (t : String),
      (∀ sp ∈ specs, ∀ v u b m, ∃ r, sp.normalizeE v u b m = .ok r) →
      ∃ bag, runEngineE specs t = .ok bag) := by
  constructor
  · intro t
    show runEngineE (SPECS.map liftSpec) t = Except.ok (parseReport t)
    unfold runEngineE
    have h1 : pass1E (SPECS.map liftSpec) t = .ok (pass1 t) := by
      unfold pass1E pass1
      exact pass1E_lift_aux t SPECS emptyBag
    rw [h1]
    show Except.ok ((SPECS.map liftSpec).foldl deriveStepE (pass1 t)) = _
    rw [pass2E_lift SPECS (pass1 t)]
    rfl
  · intro specs t htot
    obtain ⟨b, hb⟩ := pass1E_total t specs emptyBag htot
    refine ⟨specs.foldl deriveStepE b, ?_⟩
    unfold runEngineE pass1E
    rw [hb]
    rfl

/-- Witness for the amended C6: a registry containing a derivation
that always throws still parses without error. -/
theorem claim_C6_witness :
    ∃ bag, runEngineE [throwingDeriveSpec] "HR 70 bpm" = Except.ok bag :=
  claim_C6_no_throw.2 [throwingDeriveSpec] "HR 70 bpm" (by
    intro sp hsp v u b m
    simp only [List.mem_singleton] at hsp
    subst hsp
    exact ⟨none, rfl⟩)

end Diasto

